import Mathlib

/-!
# Verification of the pythonks tutorial-notebook repository

A shallow embedding, in Lean 4, of the Python/PyTorch code of the
`pythonks` repository: the linear-regression workflow notebook, the
binary-classification notebook, the computer-vision notebook and the
fundamentals notebook.  Tensors of rational entries are modelled as
`List ℚ`; stateful framework operations (optimizer steps, gradient
buffers, the file system) are modelled by explicit state passing;
framework internals the notebooks delegate to (autograd, the SGD update
rule, serialization) are abstract parameters, following the notebooks'
own stance that those belong to the framework.
-/

/-! ## Tensor primitives (torch helpers used by the notebooks) -/

/-- Embedding of `torch.arange(start, stop, step)`: the arithmetic
progression `start + i * step` for `i = 0, 1, ...` with as many terms as
fit strictly below `stop` (count `⌈(stop - start) / step⌉`). -/
def torch_arange (start stop step : ℚ) : List ℚ :=
  (List.range (Int.toNat ⌈(stop - start) / step⌉)).map (fun (i : ℕ) => start + (i : ℚ) * step)

/-- Embedding of `torch.eq(a, b)`: elementwise equality test producing a
boolean tensor. -/
def torch_eq (a b : List ℚ) : List Bool :=
  List.zipWith (fun x y => decide (x = y)) a b

/-- Embedding of `.sum().item()` on a boolean tensor: `True` counts as 1. -/
def bool_sum (l : List Bool) : ℚ :=
  (l.map (fun b => if b then (1 : ℚ) else 0)).sum

/-! ## The workflow notebook: `LinearRegressionModel` (part_001, lines 170–192)

The model holds two scalar parameters `_weight` and `_bias`, exposed
through the `weight` and `bias` properties; `forward` computes
`self.weight * predictor + self.bias`, broadcast over the input tensor. -/

structure LinearRegressionModel where
  _weight : ℚ
  _bias : ℚ

/-- The `weight` property of `LinearRegressionModel`. -/
def LinearRegressionModel.weight (m : LinearRegressionModel) : ℚ := m._weight

/-- The `bias` property of `LinearRegressionModel`. -/
def LinearRegressionModel.bias (m : LinearRegressionModel) : ℚ := m._bias

/-- Source: `forward(self, predictor): return self.weight * predictor + self.bias`. -/
def LinearRegressionModel.forward (m : LinearRegressionModel) (predictor : List ℚ) : List ℚ :=
  predictor.map (fun x => m.weight * x + m.bias)

/-- The model's state dictionary: the entries for `_weight` and `_bias`,
exactly the parameters registered on the module (part_001, line 214). -/
structure StateDict where
  weightEntry : ℚ
  biasEntry : ℚ

/-- Source: `state_dict()` as inherited from `nn.Module`: it captures the two
registered parameters. -/
def LinearRegressionModel.state_dict (m : LinearRegressionModel) : StateDict :=
  ⟨m._weight, m._bias⟩

/-- Source: `load_state_dict(sd)`: overwrite the module's registered parameters
with the entries of the dictionary. -/
def LinearRegressionModel.load_state_dict
    (_m : LinearRegressionModel) (sd : StateDict) : LinearRegressionModel :=
  { _weight := sd.weightEntry, _bias := sd.biasEntry }

/-- A file produced by `torch.save`: it holds the pickled state
dictionary and nothing else — there is no custom storage format
(part_001, lines 399–402). -/
structure SavedFile where
  contents : StateDict

/-- Source: `torch.save(obj=sd, f=path)`: pickle the state dictionary. -/
def torch_save (sd : StateDict) : SavedFile := ⟨sd⟩

/-- Source: `torch.load(f=path)`: unpickle, recovering the state dictionary. -/
def torch_load (f : SavedFile) : StateDict := f.contents

/-! ## The workflow notebook: data generation and the 80/20 split
(part_001, lines 74–121) -/

/-- Source: `true_weight = 0.7` (part_001, line 74). -/
def true_weight : ℚ := 7 / 10

/-- Source: `true_bias = 0.3` (part_001, line 74). -/
def true_bias : ℚ := 3 / 10

/-- Source: `predictor = torch.arange(0, 1, 0.02)` (part_001, line 75). -/
def predictor : List ℚ := torch_arange 0 1 (2 / 100)

/-- Source: `target = true_weight * predictor + true_bias` (part_001, line 94). -/
def target : List ℚ := predictor.map (fun x => true_weight * x + true_bias)

/-- Source: `train_cutoff = int(0.8 * predictor.size(dim=0))` (part_001,
line 119); Python's `int()` truncates toward zero, which on the
nonnegative value `0.8 * 50` is the floor. -/
def train_cutoff : ℕ := Int.toNat ⌊(8 / 10 : ℚ) * predictor.length⌋

/-- Source: `train_predictor = predictor[:train_cutoff]` (part_001, line 120). -/
def train_predictor : List ℚ := predictor.take train_cutoff

/-- Source: `train_target = target[:train_cutoff]` (part_001, line 120). -/
def train_target : List ℚ := target.take train_cutoff

/-- Source: `test_predictor = predictor[train_cutoff:]` (part_001, line 121). -/
def test_predictor : List ℚ := predictor.drop train_cutoff

/-- Source: `test_target = target[train_cutoff:]` (part_001, line 121). -/
def test_target : List ℚ := target.drop train_cutoff

/-! ## The classification notebook: models, sigmoid/round, accuracy
(part_000) -/

namespace nn

/-- Embedding of `torch.nn.Linear(in_features, out_features)`: a weight
matrix (`out_features` rows of `in_features` entries) and a bias vector. -/
structure Linear (in_features out_features : ℕ) where
  weightM : List (List ℚ)
  biasV : List ℚ

/-- Applying a linear layer to a feature vector: `W x + b`. -/
def Linear.apply {i o : ℕ} (l : Linear i o) (x : List ℚ) : List ℚ :=
  List.zipWith (· + ·) (l.weightM.map (fun row => (List.zipWith (· * ·) row x).sum)) l.biasV

/-- Embedding of `torch.nn.ReLU()`: elementwise `max 0`. -/
def ReLU (x : List ℚ) : List ℚ := x.map (fun v => max v 0)

end nn

/-- Source: `CircleModelLinearLayers` (part_000, lines 174–182): two linear
layers, `2 → 5` and `5 → 1`. -/
structure CircleModelLinearLayers where
  layer_1 : nn.Linear 2 5
  layer_2 : nn.Linear 5 1

/-- Source: `forward(self, points): return self.layer_2(self.layer_1(points))`. -/
def CircleModelLinearLayers.forward (m : CircleModelLinearLayers) (points : List ℚ) : List ℚ :=
  m.layer_2.apply (m.layer_1.apply points)

/-- Source: `CircleModelNonLinear` (part_000, lines 339–348): the same two
linear layers with a ReLU between them. -/
structure CircleModelNonLinear where
  layer_1 : nn.Linear 2 5
  layer_2 : nn.Linear 5 1

/-- Source: `forward(self, points): return self.layer_2(self.relu(self.layer_1(points)))`. -/
def CircleModelNonLinear.forward (m : CircleModelNonLinear) (points : List ℚ) : List ℚ :=
  m.layer_2.apply (nn.ReLU (m.layer_1.apply points))

/-- Source: `accuracy_function` (part_000, lines 465–467):
`correct = torch.eq(test_output, test_classification).sum().item()`
then `return (correct / len(test_classification)) * 100`. -/
def accuracy_function (test_output test_classification : List ℚ) : ℚ :=
  let correct := bool_sum (torch_eq test_output test_classification)
  (correct / test_classification.length) * 100

/-- Embedding of `torch.sigmoid`: the logistic function
`1 / (1 + exp (-x))`, over the reals. -/
noncomputable def sigmoid (x : ℝ) : ℝ := 1 / (1 + Real.exp (-x))

/-- Embedding of `torch.round`: rounding to the nearest integer with
ties broken toward the even integer (round-half-to-even, the documented
behaviour of `torch.round`). -/
noncomputable def roundHalfToEven (y : ℝ) : ℤ :=
  if y - ⌊y⌋ < 1 / 2 then ⌊y⌋
  else if 1 / 2 < y - ⌊y⌋ then ⌊y⌋ + 1
  else if Even ⌊y⌋ then ⌊y⌋ else ⌊y⌋ + 1

/-! ## The training loops as operation traces (C2, C4)

Each statement of an epoch body that touches the framework is one
`TrainOp`; the per-notebook lists below transcribe the epoch bodies in
source order. -/

/-- The framework operations appearing in the notebooks' epoch bodies. -/
inductive TrainOp where
  | modeTrain      -- `model.train()`
  | forwardTrain   -- forward pass over the training data
  | classifyTrain  -- `torch.round(torch.sigmoid(train_logits))`
  | lossTrain      -- loss computation against the true targets
  | accumLoss      -- `train_loss += loss` (computer-vision notebook)
  | zeroGrad       -- `optimizer.zero_grad()`
  | backwardOp     -- `loss.backward()`
  | optimStep      -- `optimizer.step()`
  | logProgress    -- `print(...)` progress reporting
  | divideAccum    -- `train_loss /= len(...)` style normalization
  | modeEval       -- `model.eval()`
  | forwardTest    -- forward pass over the test data (inference mode)
  | classifyTest   -- `torch.round(torch.sigmoid(test_logits))`
  | lossTest       -- test loss computation (inference mode)
  | accumAcc       -- `test_accuracy += accuracy_function(...)`
  | toDevice       -- `.to(DEVICE)` moves
  | recordLoss     -- `train_losses.append(...)` bookkeeping
deriving DecidableEq, Repr

/-- The epoch body of the workflow notebook's training loop (part_001,
lines 309–323), one `TrainOp` per statement in source order. -/
def workflowEpochOps : List TrainOp :=
  [.modeTrain, .forwardTrain, .lossTrain, .zeroGrad, .backwardOp, .optimStep,
   .modeEval, .forwardTest, .lossTest, .recordLoss, .recordLoss]

/-- The epoch body of the classification notebook's training loop
(part_000, lines 286–303; the same body recurs at lines 384–401 and
428–445), in source order. -/
def classificationEpochOps : List TrainOp :=
  [.modeTrain, .forwardTrain, .classifyTrain, .lossTrain, .zeroGrad, .backwardOp,
   .optimStep, .modeEval, .forwardTest, .classifyTest, .lossTest, .logProgress]

/-- The body of one training batch of the computer-vision notebook's
loop (pytorch_computervision.ipynb, epoch body lines 284–305), in
source order. -/
def cvTrainBatchOps : List TrainOp :=
  [.toDevice, .modeTrain, .forwardTrain, .lossTrain, .accumLoss, .zeroGrad,
   .backwardOp, .optimStep, .logProgress]

/-- The body of one test batch of the computer-vision notebook's
evaluation section (lines 311–319), in source order. -/
def cvTestBatchOps : List TrainOp :=
  [.toDevice, .forwardTest, .lossTest, .accumAcc]

/-- The epoch body of the computer-vision notebook's loop for
`nb` training batches and `ntb` test batches: the training batches, the
normalization of the accumulated loss, `model.eval()`, then the
inference-mode evaluation over the test batches and its normalizations. -/
def cvEpochOps (nb ntb : ℕ) : List TrainOp :=
  (List.replicate nb cvTrainBatchOps).flatten ++ [.divideAccum, .modeEval]
    ++ (List.replicate ntb cvTestBatchOps).flatten
    ++ [.divideAccum, .divideAccum, .logProgress]

/-- The operations named by the boilerplate schema: forward pass, loss
computation, `zero_grad`, `backward`, `step`, and the inference-mode
evaluation passes (test forward and test loss). -/
def isSchemaOp : TrainOp → Bool
  | .forwardTrain | .lossTrain | .zeroGrad | .backwardOp | .optimStep
  | .forwardTest | .lossTest => true
  | _ => false

/-- The schema of the framework's tutorial training loop, for `nb`
training batches and `ntb` test batches per epoch: for each batch a
forward pass, the loss computation, `optimizer.zero_grad()`,
`loss.backward()`, `optimizer.step()`, in this order, then the
evaluation pass on the test data. -/
def schemaOps (nb ntb : ℕ) : List TrainOp :=
  (List.replicate nb [.forwardTrain, .lossTrain, .zeroGrad, .backwardOp, .optimStep]).flatten
    ++ (List.replicate ntb [.forwardTest, .lossTest]).flatten

/-- The full training loop is the epoch body repeated for each epoch:
`for epoch in range(epoch_count)` over the given body. -/
def loopOps (epoch_count : ℕ) (epochBody : List TrainOp) : List TrainOp :=
  (List.replicate epoch_count epochBody).flatten

/-! ### State semantics of the operations (C4)

The mutable framework state visible to the loops: the model parameters
and the gradient buffers.  Following the framework's documented
behaviour, `optimizer.zero_grad()` clears the gradient buffers,
`loss.backward()` writes them (autograd is abstract), and only
`optimizer.step()` writes the parameters; forward passes, loss
computations, mode switches and everything run under
`torch.inference_mode()` read but never write. -/

structure OptState (P : Type) where
  params : P
  grads : P

/-- The semantics of one `TrainOp` on the framework state, parameterized
by the framework internals: `zeroP` (the cleared gradient buffer),
`gradF` (autograd: gradients of the loss at the current parameters) and
`stepF` (the optimizer's parameter update from parameters and
gradients). -/
def applyOp {P : Type} (zeroP : P) (gradF : P → P) (stepF : P → P → P) :
    TrainOp → OptState P → OptState P
  | .zeroGrad, s => ⟨s.params, zeroP⟩
  | .backwardOp, s => ⟨s.params, gradF s.params⟩
  | .optimStep, s => ⟨stepF s.params s.grads, s.grads⟩
  | _, s => s

/-- Running a list of operations in order. -/
def runOps {P : Type} (zeroP : P) (gradF : P → P) (stepF : P → P → P)
    (ops : List TrainOp) (s : OptState P) : OptState P :=
  ops.foldl (fun st op => applyOp zeroP gradF stepF op st) s

/-! ## Dataset acquisition (C5)

Every way any notebook obtains data, transcribed from the source.  The
constructors are the three acquisition forms that occur; their
arguments are the arguments passed at the call sites. -/

/-- One dataset-acquisition call in a notebook. -/
inductive DatasetSource where
  | makeCircles (n_samples : ℕ) (noise : ℚ) (random_state : ℕ)
  | fashionMNIST (train : Bool)
  | arangeData (start stop step : ℚ)
deriving DecidableEq, Repr

/-- Dataset acquisitions of the classification notebook: the single
`make_circles(sample_size, noise=0.03, random_state=42)` call with
`sample_size = 1000` (part_000, lines 60–65). -/
def classificationNotebookDatasets : List DatasetSource :=
  [.makeCircles 1000 (3 / 100) 42]

/-- Dataset acquisitions of the computer-vision notebook:
`datasets.FashionMNIST(..., train=True, ...)` for the training data and
`datasets.FashionMNIST(..., train=False, ...)` for the test data
(pytorch_computervision.ipynb, dataset cell). -/
def cvNotebookDatasets : List DatasetSource :=
  [.fashionMNIST true, .fashionMNIST false]

/-- Dataset acquisitions of the workflow notebook: the deterministic
generations `torch.arange(0, 1, 0.02)` (part_001, line 75) and
`torch.arange(1.02, 1.20, 0.02)` (part_001, line 373). -/
def workflowNotebookDatasets : List DatasetSource :=
  [.arangeData 0 1 (2 / 100), .arangeData (102 / 100) (120 / 100) (2 / 100)]

/-- Dataset acquisitions of the fundamentals notebook: none (its cells
construct example tensors, no dataset is fed to any model). -/
def fundamentalsNotebookDatasets : List DatasetSource := []

/-! ## Framework-API usage and cell terminals (C6) -/

/-- Loss-function constructors of the framework (the ones the claim
names, plus others that would falsify the claim if they occurred). -/
inductive LossApi where
  | l1Loss | bceWithLogitsLoss | crossEntropyLoss | mseLoss | nllLoss
deriving DecidableEq, Repr

/-- Optimizer constructors. -/
inductive OptimApi where
  | sgd | adam | rmsprop
deriving DecidableEq, Repr

/-- Layer constructors. -/
inductive LayerApi where
  | linearLayer | reluLayer | flattenLayer | sequentialContainer | conv2dLayer
deriving DecidableEq, Repr

/-- How a result-producing notebook cell ends. A bare trailing
expression is displayed by the notebook, which we record as a print. -/
inductive TerminalAction where
  | printResult | plotResult | returnToCaller
deriving DecidableEq, Repr

/-- The per-notebook summary of framework usage: whether `torch` is
imported, which layer, optimizer and loss constructors are called, and
how each result-producing cell ends. -/
structure NotebookSummary where
  importsTorch : Bool
  layerCtors : List LayerApi
  optimizers : List OptimApi
  lossFns : List LossApi
  resultTerminals : List TerminalAction
deriving DecidableEq, Repr

/-- Summary of the workflow notebook (part_001): `import torch`
(line 39); no layer constructor (the model builds on `nn.Parameter`
directly); `torch.optim.SGD` (line 279); `nn.L1Loss` (line 278); its
result-producing cells print tensors or state dicts or plot scatter and
loss curves. -/
def workflowSummary : NotebookSummary where
  importsTorch := true
  layerCtors := []
  optimizers := [.sgd]
  lossFns := [.l1Loss]
  resultTerminals :=
    [.printResult, .printResult, .plotResult, .printResult, .printResult,
     .plotResult, .plotResult, .printResult, .printResult, .printResult]

/-- Summary of the classification notebook (part_000): `import torch`
(line 38); `nn.Linear` and `nn.ReLU` (lines 178–179, 343–345);
`torch.optim.SGD` (lines 262, 368, 420); `nn.BCEWithLogitsLoss`
(line 261); its result-producing cells print or plot, ending with the
bare `accuracy_function(...)` display. -/
def classificationSummary : NotebookSummary where
  importsTorch := true
  layerCtors := [.linearLayer, .reluLayer]
  optimizers := [.sgd]
  lossFns := [.bceWithLogitsLoss]
  resultTerminals :=
    [.printResult, .plotResult, .printResult, .printResult, .printResult,
     .printResult, .printResult, .printResult, .printResult, .printResult,
     .printResult]

/-- Summary of the computer-vision notebook
(pytorch_computervision.ipynb): `import torch`; `nn.Flatten`,
`nn.Linear` (twice) and `nn.Sequential` in `FashionMNISTLinear`;
`torch.optim.SGD`; `nn.CrossEntropyLoss`; its result-producing cells
print dataset facts and training progress or plot images. -/
def cvSummary : NotebookSummary where
  importsTorch := true
  layerCtors := [.sequentialContainer, .flattenLayer, .linearLayer, .linearLayer]
  optimizers := [.sgd]
  lossFns := [.crossEntropyLoss]
  resultTerminals :=
    [.printResult, .printResult, .printResult, .plotResult, .printResult,
     .printResult]

/-- Summary of the fundamentals notebook (the second document in
pytorch_computervision.ipynb's file): `import torch`; no layers,
optimizers or losses; every result-producing cell prints or displays
tensors. -/
def fundamentalsSummary : NotebookSummary where
  importsTorch := true
  layerCtors := []
  optimizers := []
  lossFns := []
  resultTerminals :=
    [.printResult, .printResult, .printResult, .printResult, .printResult,
     .printResult, .printResult, .printResult, .printResult, .printResult]

/-- All four notebooks of the repository. -/
def allNotebookSummaries : List NotebookSummary :=
  [workflowSummary, classificationSummary, cvSummary, fundamentalsSummary]

/-! ## Exception flow and `mkdir` (C7)

A small statement language for the notebooks' cells: library calls that
may fail at runtime, sequencing, and Python's `try/except` (which no
notebook uses).  An oracle assigns to each library call the error it
raises, if any; execution aborts at the first unhandled error. -/

/-- The library calls of the notebooks relevant to failure flow. -/
inductive LibCall where
  | makeCirclesCall | fromNumpyCall | trainTestSplitCall | plotCall | printCall
  | modelCtorCall | forwardCall | lossCtorCall | optimCtorCall | lossCall
  | zeroGradCall | backwardCall | stepCall | mkPathCall | mkdirCall
  | torchSaveCall | torchLoadCall | datasetDownloadCall | dataLoaderCall
  | arangeCall | manualSeedCall | accuracyCall | stateDictCall | loadStateDictCall
deriving DecidableEq, Repr

/-- Python statements as the notebooks use them. -/
inductive PyStmt where
  | call (c : LibCall)
  | seq (s1 s2 : PyStmt)
  | tryExcept (body handler : PyStmt)
deriving DecidableEq, Repr

/-- Chain a nonempty list of calls into a `seq`-statement. -/
def callSeq : List LibCall → PyStmt
  | [] => .call .printCall
  | [c] => .call c
  | c :: rest => .seq (.call c) (callSeq rest)

/-- Execution: a failing call raises; `seq` aborts on the first error;
`try/except` would recover by running the handler. -/
def runStmt (oracle : LibCall → Option ℕ) : PyStmt → Except ℕ Unit
  | .call c =>
    match oracle c with
    | some e => .error e
    | none => .ok ()
  | .seq a b =>
    match runStmt oracle a with
    | .error e => .error e
    | .ok _ => runStmt oracle b
  | .tryExcept body handler =>
    match runStmt oracle body with
    | .error _ => runStmt oracle handler
    | .ok u => .ok u

/-- Check whether a statement contains no exception handler. -/
def handlerFree : PyStmt → Bool
  | .call _ => true
  | .seq a b => handlerFree a && handlerFree b
  | .tryExcept _ _ => false

/-- The first error the statement's calls would raise under the oracle,
in execution order (handlers ignored: for handler-free code this is the
error that reaches the top level). -/
def firstFailure (oracle : LibCall → Option ℕ) : PyStmt → Option ℕ
  | .call c => oracle c
  | .seq a b => (firstFailure oracle a).orElse (fun _ => firstFailure oracle b)
  | .tryExcept body _ => firstFailure oracle body

/-- The workflow notebook's statements (part_001), in source order:
data generation, model and optimizer construction, the training loop's
calls, prediction, then `Path(...)`, `mkdir(parents=True,
exist_ok=True)`, `torch.save`, and the reload cell. -/
def workflowNotebookStmts : PyStmt :=
  callSeq
    [.arangeCall, .printCall, .plotCall, .modelCtorCall, .stateDictCall,
     .forwardCall, .lossCtorCall, .optimCtorCall, .manualSeedCall,
     .forwardCall, .lossCall, .zeroGradCall, .backwardCall, .stepCall,
     .forwardCall, .lossCall, .plotCall, .printCall, .forwardCall,
     .mkPathCall, .mkdirCall, .torchSaveCall,
     .modelCtorCall, .torchLoadCall, .loadStateDictCall, .forwardCall, .printCall]

/-- The classification notebook's statements (part_000), in source
order at call granularity. -/
def classificationNotebookStmts : PyStmt :=
  callSeq
    [.makeCirclesCall, .printCall, .plotCall, .fromNumpyCall, .trainTestSplitCall,
     .modelCtorCall, .forwardCall, .lossCtorCall, .optimCtorCall, .manualSeedCall,
     .forwardCall, .lossCall, .zeroGradCall, .backwardCall, .stepCall,
     .forwardCall, .lossCall, .printCall, .accuracyCall]

/-- The computer-vision notebook's statements, in source order at call
granularity: the FashionMNIST downloads, the loaders, the model, and
the batched training loop. -/
def cvNotebookStmts : PyStmt :=
  callSeq
    [.datasetDownloadCall, .datasetDownloadCall, .printCall, .plotCall,
     .dataLoaderCall, .dataLoaderCall, .modelCtorCall, .lossCtorCall,
     .optimCtorCall, .manualSeedCall, .forwardCall, .lossCall, .zeroGradCall,
     .backwardCall, .stepCall, .forwardCall, .lossCall, .accuracyCall, .printCall]

/-- The fundamentals notebook's statements: tensor constructions and
prints only. -/
def fundamentalsNotebookStmts : PyStmt :=
  callSeq [.arangeCall, .printCall, .printCall, .printCall]

/-- The four notebooks' statement transcriptions. -/
def allNotebookStmts : List PyStmt :=
  [workflowNotebookStmts, classificationNotebookStmts, cvNotebookStmts,
   fundamentalsNotebookStmts]

/-- Errors `pathlib.Path.mkdir` can raise. -/
inductive MkdirError where
  | fileExists | fileNotFound
deriving DecidableEq, Repr

/-- Proper nonempty prefixes of a path (its parent directories). -/
def pathParents (p : List ℕ) : List (List ℕ) :=
  (List.range (p.length - 1)).map (fun k => p.take (k + 1))

/-- Embedding of `pathlib.Path.mkdir(parents, exist_ok)` on a file
system modelled as the list of existing directories: raises
`FileExistsError` when the directory exists and `exist_ok` is false,
raises `FileNotFoundError` when a parent is missing and `parents` is
false, and otherwise creates the directory (and, with `parents`, its
missing parents). -/
def pathlib_mkdir (fs : List (List ℕ)) (p : List ℕ) (parents exist_ok : Bool) :
    Except MkdirError (List (List ℕ)) :=
  if p ∈ fs then
    if exist_ok then .ok fs else .error .fileExists
  else if (pathParents p).all (· ∈ fs) then .ok (p :: fs)
  else if parents then .ok (p :: (pathParents p ++ fs))
  else .error .fileNotFound

/-! ## Helper lemmas -/

/-- Spec-side formula: the number of positions at which two equal-length
tensors agree. -/
def numEqualPositions (a b : List ℚ) : ℕ :=
  (a.zip b).countP (fun p => decide (p.1 = p.2))

theorem bool_sum_torch_eq (a : List ℚ) :
    ∀ b : List ℚ, bool_sum (torch_eq a b) = (numEqualPositions a b : ℚ) := by
  induction a with
  | nil => intro b; simp [bool_sum, torch_eq, numEqualPositions]
  | cons x xs ih =>
    intro b
    cases b with
    | nil => simp [bool_sum, torch_eq, numEqualPositions]
    | cons y ys =>
      have hx := ih ys
      simp only [bool_sum, torch_eq, numEqualPositions, List.zipWith_cons_cons,
        List.zip_cons_cons, List.countP_cons, List.map_cons, List.sum_cons] at hx ⊢
      by_cases h : x = y <;> simp [h] <;> push_cast <;> rw [← hx] <;> ring

theorem numEqualPositions_le (a b : List ℚ) : numEqualPositions a b ≤ b.length :=
  (List.countP_le_length _).trans (by rw [List.length_zip]; exact min_le_right _ _)

theorem numEqualPositions_comm (a : List ℚ) :
    ∀ b : List ℚ, numEqualPositions a b = numEqualPositions b a := by
  induction a with
  | nil => intro b; cases b <;> simp [numEqualPositions]
  | cons x xs ih =>
    intro b
    cases b with
    | nil => simp [numEqualPositions]
    | cons y ys =>
      have hx := ih ys
      simp only [numEqualPositions, List.zip_cons_cons, List.countP_cons] at hx ⊢
      rw [hx]
      by_cases h : x = y <;> simp [h, eq_comm]

theorem numEqualPositions_eq_length_iff (a : List ℚ) :
    ∀ b : List ℚ, a.length = b.length → (numEqualPositions a b = b.length ↔ a = b) := by
  induction a with
  | nil =>
    intro b hlen
    cases b with
    | nil => simp [numEqualPositions]
    | cons y ys => simp at hlen
  | cons x xs ih =>
    intro b hlen
    cases b with
    | nil => simp at hlen
    | cons y ys =>
      simp only [List.length_cons, Nat.succ_inj] at hlen
      simp only [numEqualPositions, List.zip_cons_cons, List.countP_cons, List.length_cons]
      by_cases h : x = y
      · subst h
        have := ih ys hlen
        simp only [numEqualPositions] at this
        simp [this]
      · have hle : (xs.zip ys).countP (fun p => decide (p.1 = p.2)) ≤ ys.length := by
          simpa [numEqualPositions] using numEqualPositions_le xs ys
        simp only [h, decide_eq_true_eq, if_false]
        constructor
        · intro hc; omega
        · intro hc; injection hc with h1 _; exact absurd h1 h

/-- A filtered flattening lemma used for the batched training loop. -/
theorem filter_replicate_flatten (f : TrainOp → Bool) (n : ℕ) (l : List TrainOp) :
    ((List.replicate n l).flatten).filter f = (List.replicate n (l.filter f)).flatten := by
  rw [List.filter_flatten, List.map_replicate]

/-! ## The claims -/

/-- C1: model persistence is a round-trip — saving the state dictionary
with `torch.save`, loading it back, and installing it into a freshly
constructed `LinearRegressionModel` yields a model whose forward
prediction (`weight * predictor + bias`) agrees with the saved model's
prediction on every input tensor, because `forward` depends only on the
weight and bias captured in the state dictionary. -/
theorem state_dict_roundtrip (sample fresh : LinearRegressionModel) (x : List ℚ) :
    (fresh.load_state_dict (torch_load (torch_save sample.state_dict))).forward x
      = sample.forward x := rfl

/-- C10: the 80/20 split of the workflow notebook is a partition — the
cutoff is `int(0.8 * 50) = 40`, the training slices have exactly 40
elements, the testing slices exactly the remaining 10, the two
predictor slices share no element, and concatenating training and
testing slices restores the original sequence, for both the predictor
and the target. -/
theorem pareto_split_partition :
    train_cutoff = 40
    ∧ train_predictor.length = 40 ∧ test_predictor.length = 10
    ∧ train_target.length = 40 ∧ test_target.length = 10
    ∧ train_predictor ++ test_predictor = predictor
    ∧ train_target ++ test_target = target
    ∧ (∀ x ∈ train_predictor, x ∉ test_predictor) := by
  have hplen : predictor.length = 50 := by
    rw [predictor, torch_arange, List.length_map, List.length_range]
    norm_num
    rfl
  have htlen : target.length = 50 := by rw [target, List.length_map, hplen]
  have hcut : train_cutoff = 40 := by
    rw [train_cutoff, hplen]
    norm_num
    rfl
  have hnodup : predictor.Nodup := by
    rw [predictor, torch_arange]
    refine List.Nodup.map ?_ (List.nodup_range _)
    intro i j hij
    simp only [zero_add] at hij
    have : (i : ℚ) = j := by
      have h2 : (2 / 100 : ℚ) ≠ 0 := by norm_num
      exact mul_right_cancel₀ h2 hij
    exact_mod_cast this
  refine ⟨hcut, ?_, ?_, ?_, ?_,
    List.take_append_drop _ _, List.take_append_drop _ _, ?_⟩
  · rw [train_predictor, List.length_take, hcut, hplen]; omega
  · rw [test_predictor, List.length_drop, hcut, hplen]
  · rw [train_target, List.length_take, hcut, htlen]; omega
  · rw [test_target, List.length_drop, hcut, htlen]
  · intro x hx
    exact List.disjoint_left.mp (List.disjoint_take_drop hnodup le_rfl) hx

/-- C5: dataset acquisition is exactly via well-known toy loaders — the
classification notebook's only dataset comes from `make_circles` with
sample size 1000, noise 0.03 and random state 42, the computer-vision
notebook's only datasets come from the FashionMNIST loader with
`train=True` and `train=False`, and every other dataset construction in
any notebook is deterministic generation from `torch.arange`. -/
theorem dataset_acquisition_is_toy_loaders :
    classificationNotebookDatasets = [DatasetSource.makeCircles 1000 (3 / 100) 42]
    ∧ cvNotebookDatasets = [DatasetSource.fashionMNIST true, DatasetSource.fashionMNIST false]
    ∧ (∀ d ∈ workflowNotebookDatasets ++ fundamentalsNotebookDatasets,
        ∃ a b s, d = DatasetSource.arangeData a b s) := by
  refine ⟨rfl, rfl, ?_⟩
  intro d hd
  simp only [workflowNotebookDatasets, fundamentalsNotebookDatasets, List.append_nil,
    List.mem_cons, List.not_mem_nil, or_false] at hd
  rcases hd with rfl | rfl
  · exact ⟨_, _, _, rfl⟩
  · exact ⟨_, _, _, rfl⟩

theorem dataset_acquisition_is_toy_loaders_witness :
    DatasetSource.arangeData 0 1 (2 / 100)
        ∈ workflowNotebookDatasets ++ fundamentalsNotebookDatasets
    ∧ ∃ a b s, DatasetSource.arangeData 0 1 (2 / 100) = DatasetSource.arangeData a b s :=
  ⟨by simp [workflowNotebookDatasets, fundamentalsNotebookDatasets],
   dataset_acquisition_is_toy_loaders.2.2 _
     (by simp [workflowNotebookDatasets, fundamentalsNotebookDatasets])⟩

/-- C6: every notebook imports the PyTorch framework; the optimizers
used are exactly `torch.optim.SGD`, the loss functions lie among
`nn.L1Loss`, `nn.BCEWithLogitsLoss` and `nn.CrossEntropyLoss`, the layer
constructors lie among `nn.Linear`, `nn.ReLU`, `nn.Flatten` and the
`nn.Sequential` container; and every result-producing cell ends by
printing or plotting its result, never by returning it to a caller. -/
theorem notebooks_exercise_documented_apis :
    ∀ nb ∈ allNotebookSummaries,
      nb.importsTorch = true
      ∧ (∀ t ∈ nb.resultTerminals,
          t = TerminalAction.printResult ∨ t = TerminalAction.plotResult)
      ∧ (∀ o ∈ nb.optimizers, o = OptimApi.sgd)
      ∧ (∀ l ∈ nb.lossFns,
          l = LossApi.l1Loss ∨ l = LossApi.bceWithLogitsLoss ∨ l = LossApi.crossEntropyLoss)
      ∧ (∀ ly ∈ nb.layerCtors,
          ly = LayerApi.linearLayer ∨ ly = LayerApi.reluLayer ∨ ly = LayerApi.flattenLayer
            ∨ ly = LayerApi.sequentialContainer) := by
  decide

theorem notebooks_exercise_documented_apis_witness :
    classificationSummary ∈ allNotebookSummaries ∧ classificationSummary.importsTorch = true :=
  ⟨by decide, (notebooks_exercise_documented_apis classificationSummary (by decide)).1⟩

/-- C2: every training loop instantiates the tutorial boilerplate
schema — restricted to the schema's named operations, each epoch body
performs, in this order, the forward pass, the loss computation,
`optimizer.zero_grad()`, `loss.backward()`, `optimizer.step()` (once
per batch in the DataLoader-based computer-vision loop), followed by
the inference-mode evaluation pass on the test data; and the workflow
and classification loops coincide on those operations, so the three
loops differ only in model, loss function and epoch/batch counts. -/
theorem training_loops_instantiate_tutorial_schema :
    workflowEpochOps.filter isSchemaOp = schemaOps 1 1
    ∧ classificationEpochOps.filter isSchemaOp = schemaOps 1 1
    ∧ (∀ nb ntb : ℕ, (cvEpochOps nb ntb).filter isSchemaOp = schemaOps nb ntb)
    ∧ workflowEpochOps.filter isSchemaOp = classificationEpochOps.filter isSchemaOp := by
  refine ⟨by decide, by decide, ?_, by decide⟩
  intro nb ntb
  have h1 : cvTrainBatchOps.filter isSchemaOp
      = [TrainOp.forwardTrain, TrainOp.lossTrain, TrainOp.zeroGrad,
         TrainOp.backwardOp, TrainOp.optimStep] := rfl
  have h2 : cvTestBatchOps.filter isSchemaOp = [TrainOp.forwardTest, TrainOp.lossTest] := rfl
  have h3 : [TrainOp.divideAccum, TrainOp.modeEval].filter isSchemaOp = [] := rfl
  have h4 : [TrainOp.divideAccum, TrainOp.divideAccum,
      TrainOp.logProgress].filter isSchemaOp = [] := rfl
  simp only [cvEpochOps, schemaOps, List.filter_append, filter_replicate_flatten,
    h1, h2, h3, h4, List.append_nil, List.nil_append]

/-- Only `optimizer.step()` writes the parameter component of the
framework state. -/
theorem applyOp_params_eq {P : Type} (zeroP : P) (gradF : P → P) (stepF : P → P → P)
    (op : TrainOp) (hop : op ≠ TrainOp.optimStep) (s : OptState P) :
    (applyOp zeroP gradF stepF op s).params = s.params := by
  cases op <;> first | rfl | exact absurd rfl hop

/-- C4: in every epoch of every training loop, the model parameters
change only at the `optimizer.step()` call — executing the epoch's
operations one after another, any operation other than
`optimizer.step()` (in particular the forward pass, the loss
computation, and the whole inference-mode test-evaluation section)
leaves the parameters exactly as they were. -/
theorem params_change_only_at_optimizer_step {P : Type}
    (zeroP : P) (gradF : P → P) (stepF : P → P → P) (s : OptState P)
    (ops : List TrainOp)
    (hops : ops = workflowEpochOps ∨ ops = classificationEpochOps
      ∨ ∃ nb ntb : ℕ, ops = cvEpochOps nb ntb)
    (i : ℕ) (hi : i < ops.length) (hop : ops.get ⟨i, hi⟩ ≠ TrainOp.optimStep) :
    (runOps zeroP gradF stepF (ops.take (i + 1)) s).params
      = (runOps zeroP gradF stepF (ops.take i) s).params := by
  clear hops
  have htake : ops.take (i + 1) = ops.take i ++ [ops.get ⟨i, hi⟩] := by
    rw [List.take_succ, List.getElem?_eq_getElem hi]
    rfl
  rw [htake]
  unfold runOps
  rw [List.foldl_append]
  simp only [List.foldl_cons, List.foldl_nil]
  exact applyOp_params_eq _ _ _ _ hop _

theorem params_change_only_at_optimizer_step_witness :
    (runOps (0 : ℕ) id (fun p g => p + g) (workflowEpochOps.take 1) ⟨5, 7⟩).params
      = (runOps (0 : ℕ) id (fun p g => p + g) (workflowEpochOps.take 0) ⟨5, 7⟩).params :=
  params_change_only_at_optimizer_step 0 id (fun p g => p + g) ⟨5, 7⟩
    workflowEpochOps (Or.inl rfl) 0 (by decide) (by decide)

/-- In handler-free code the first raised error reaches the top level
unchanged, aborting the remaining statements. -/
theorem runStmt_eq_firstFailure (oracle : LibCall → Option ℕ) :
    ∀ s : PyStmt, handlerFree s = true →
      runStmt oracle s = (firstFailure oracle s).elim (Except.ok ()) Except.error := by
  intro s
  induction s with
  | call c =>
    intro _
    cases hc : oracle c <;> simp [runStmt, firstFailure, hc]
  | seq a b iha ihb =>
    intro h
    rw [handlerFree, Bool.and_eq_true] at h
    rw [runStmt, iha h.1, ihb h.2, firstFailure]
    cases hfa : firstFailure oracle a <;> simp [Option.orElse, hfa]
  | tryExcept body handler ihb ihh =>
    intro h
    rw [handlerFree] at h
    exact absurd h (by simp)

/-- C7: there is no failure handling anywhere — no notebook contains an
exception handler, so under any failure oracle every library-call error
propagates unchanged to the top level and aborts the cell; the only
failure-avoidance measure, `mkdir(parents=True, exist_ok=True)`,
succeeds whether or not the directory already exists and afterwards the
directory is present. -/
theorem no_failure_handling :
    (∀ s ∈ allNotebookStmts, handlerFree s = true)
    ∧ (∀ (oracle : LibCall → Option ℕ), ∀ s ∈ allNotebookStmts,
        runStmt oracle s = (firstFailure oracle s).elim (Except.ok ()) Except.error)
    ∧ (∀ (fs : List (List ℕ)) (p : List ℕ),
        ∃ fs2, pathlib_mkdir fs p true true = Except.ok fs2 ∧ p ∈ fs2) := by
  refine ⟨by decide, ?_, ?_⟩
  · intro oracle s hs
    simp only [allNotebookStmts, List.mem_cons, List.not_mem_nil, or_false] at hs
    rcases hs with rfl | rfl | rfl | rfl <;>
      exact runStmt_eq_firstFailure oracle _ (by decide)
  · intro fs p
    unfold pathlib_mkdir
    by_cases h1 : p ∈ fs
    · exact ⟨fs, by simp [h1], h1⟩
    · by_cases h2 : (pathParents p).all (fun q => decide (q ∈ fs)) = true
      · exact ⟨p :: fs, by simp [h1, h2], by simp⟩
      · exact ⟨p :: (pathParents p ++ fs), by simp [h1, h2], by simp⟩

theorem no_failure_handling_witness :
    workflowNotebookStmts ∈ allNotebookStmts
    ∧ runStmt (fun c => if c = LibCall.torchSaveCall then some 13 else none)
        workflowNotebookStmts = Except.error 13 := by
  refine ⟨by decide, ?_⟩
  have h := no_failure_handling.2.1
    (fun c => if c = LibCall.torchSaveCall then some 13 else none)
    workflowNotebookStmts (by decide)
  exact h.trans rfl

/-- C3: no original algorithm is engineered — each hand-written function
body is a direct composition of framework calls: `accuracy_function`
computes exactly `100 * (number of equal positions) / length`, the
forward methods of the circle models are the compositions of their
framework layers, and `LinearRegressionModel.forward` is the broadcast
affine map `weight * predictor + bias`. -/
theorem function_bodies_compose_framework_calls :
    (∀ a b : List ℚ, a.length = b.length →
        accuracy_function a b = 100 * (numEqualPositions a b : ℚ) / b.length)
    ∧ (∀ (m : CircleModelNonLinear) (x : List ℚ),
        m.forward x = m.layer_2.apply (nn.ReLU (m.layer_1.apply x)))
    ∧ (∀ (m : CircleModelLinearLayers) (x : List ℚ),
        m.forward x = m.layer_2.apply (m.layer_1.apply x))
    ∧ (∀ (m : LinearRegressionModel) (x : List ℚ),
        m.forward x = x.map (fun t => m.weight * t + m.bias)) := by
  refine ⟨?_, fun m x => rfl, fun m x => rfl, fun m x => rfl⟩
  intro a b _
  show bool_sum (torch_eq a b) / (b.length : ℚ) * 100 = _
  rw [bool_sum_torch_eq]
  ring

theorem function_bodies_compose_framework_calls_witness :
    ([1, 0] : List ℚ).length = ([1, 1] : List ℚ).length
    ∧ accuracy_function [1, 0] [1, 1]
        = 100 * (numEqualPositions [1, 0] [1, 1] : ℚ) / ([1, 1] : List ℚ).length :=
  ⟨rfl, function_bodies_compose_framework_calls.1 [1, 0] [1, 1] rfl⟩

/-- C9: on equal-length non-empty tensors, `accuracy_function` returns
100 times the fraction of positions at which the tensors agree; the
result lies between 0 and 100, equals 100 exactly when the tensors
agree at every position, and is symmetric in its two arguments. -/
theorem accuracy_function_is_percentage_of_matches (a b : List ℚ)
    (hlen : a.length = b.length) (hne : b ≠ []) :
    accuracy_function a b = 100 * ((numEqualPositions a b : ℚ) / b.length)
    ∧ 0 ≤ accuracy_function a b
    ∧ accuracy_function a b ≤ 100
    ∧ (accuracy_function a b = 100 ↔ a = b)
    ∧ accuracy_function a b = accuracy_function b a := by
  have hn : (0 : ℚ) < b.length := by
    exact_mod_cast Nat.pos_of_ne_zero (fun h => hne (List.length_eq_zero.mp h))
  have hacc : accuracy_function a b = (numEqualPositions a b : ℚ) / b.length * 100 := by
    show bool_sum (torch_eq a b) / (b.length : ℚ) * 100 = _
    rw [bool_sum_torch_eq]
  have hle : (numEqualPositions a b : ℚ) ≤ (b.length : ℚ) := by
    exact_mod_cast numEqualPositions_le a b
  refine ⟨by rw [hacc]; ring, ?_, ?_, ?_, ?_⟩
  · rw [hacc]; positivity
  · rw [hacc]
    have h1 : (numEqualPositions a b : ℚ) / b.length ≤ 1 := (div_le_one hn).mpr hle
    nlinarith
  · rw [hacc]
    constructor
    · intro h
      have h1 : (numEqualPositions a b : ℚ) / b.length = 1 := by linarith
      have h2 : (numEqualPositions a b : ℚ) = b.length :=
        (div_eq_one_iff_eq hn.ne').mp h1
      have h3 : numEqualPositions a b = b.length := by exact_mod_cast h2
      exact (numEqualPositions_eq_length_iff a b hlen).mp h3
    · intro h
      subst h
      have h3 : numEqualPositions a a = a.length :=
        (numEqualPositions_eq_length_iff a a rfl).mpr rfl
      rw [h3, div_self hn.ne', one_mul]
  · have hacc2 : accuracy_function b a = (numEqualPositions b a : ℚ) / a.length * 100 := by
      show bool_sum (torch_eq b a) / (a.length : ℚ) * 100 = _
      rw [bool_sum_torch_eq]
    rw [hacc, hacc2, numEqualPositions_comm, hlen]

theorem accuracy_function_is_percentage_of_matches_witness :
    ([2, 3] : List ℚ).length = ([2, 4] : List ℚ).length
    ∧ (([2, 4] : List ℚ) ≠ []
    ∧ (accuracy_function [2, 3] [2, 4]
          = 100 * ((numEqualPositions [2, 3] [2, 4] : ℚ) / ([2, 4] : List ℚ).length)
      ∧ 0 ≤ accuracy_function [2, 3] [2, 4]
      ∧ accuracy_function [2, 3] [2, 4] ≤ 100
      ∧ (accuracy_function [2, 3] [2, 4] = 100 ↔ ([2, 3] : List ℚ) = [2, 4])
      ∧ accuracy_function [2, 3] [2, 4] = accuracy_function [2, 4] [2, 3])) :=
  ⟨rfl, List.cons_ne_nil _ _,
   accuracy_function_is_percentage_of_matches [2, 3] [2, 4] rfl (List.cons_ne_nil _ _)⟩

/-- C8: the binary classification `torch.round(torch.sigmoid(x))` is
always 0 or 1, and it equals 1 exactly when the logit `x` is strictly
positive; moreover `sigmoid 0 = 0.5` and round-half-to-even sends the
boundary probability 0.5 to 0, so a zero logit is classified as 0. -/
theorem round_sigmoid_is_positive_indicator (x : ℝ) :
    (roundHalfToEven (sigmoid x) = 0 ∨ roundHalfToEven (sigmoid x) = 1)
    ∧ (roundHalfToEven (sigmoid x) = 1 ↔ 0 < x)
    ∧ sigmoid 0 = 1 / 2
    ∧ roundHalfToEven (1 / 2 : ℝ) = 0 := by
  have hexp : 0 < Real.exp (-x) := Real.exp_pos _
  have hden : 0 < 1 + Real.exp (-x) := by linarith
  have hpos : 0 < sigmoid x := by
    rw [sigmoid]; positivity
  have hlt1 : sigmoid x < 1 := by
    rw [sigmoid, div_lt_one hden]; linarith
  have hfloor : ⌊sigmoid x⌋ = 0 := Int.floor_eq_zero_iff.mpr ⟨hpos.le, hlt1⟩
  have hhalf : 1 / 2 < sigmoid x ↔ 0 < x := by
    rw [sigmoid, lt_div_iff hden]
    constructor
    · intro h
      have h1 : Real.exp (-x) < 1 := by linarith
      have h2 := Real.exp_lt_one_iff.mp h1
      linarith
    · intro h
      have h1 : Real.exp (-x) < 1 := Real.exp_lt_one_iff.mpr (by linarith)
      linarith
  have hround : roundHalfToEven (sigmoid x)
      = if sigmoid x < 1 / 2 then 0 else if 1 / 2 < sigmoid x then 1 else 0 := by
    rw [roundHalfToEven, hfloor]
    norm_num
  have hhalfzero : roundHalfToEven (1 / 2 : ℝ) = 0 := by
    have hf : ⌊(1 / 2 : ℝ)⌋ = 0 := by
      rw [Int.floor_eq_zero_iff]
      constructor <;> norm_num
    rw [roundHalfToEven, hf]
    norm_num
  have hzero : sigmoid 0 = 1 / 2 := by
    rw [sigmoid, neg_zero, Real.exp_zero]
    norm_num
  refine ⟨?_, ?_, hzero, hhalfzero⟩
  · rw [hround]
    rcases lt_trichotomy (sigmoid x) (1 / 2) with h | h | h
    · left; rw [if_pos h]
    · left
      rw [if_neg (by rw [h]; exact lt_irrefl _), if_neg (by rw [h]; exact lt_irrefl _)]
    · right; rw [if_neg (by linarith), if_pos h]
  · rw [hround]
    rcases lt_trichotomy (sigmoid x) (1 / 2) with h | h | h
    · rw [if_pos h]
      constructor
      · intro h0; exact absurd h0 (by norm_num)
      · intro hx; exact absurd (hhalf.mpr hx) (by linarith)
    · rw [if_neg (by rw [h]; exact lt_irrefl _), if_neg (by rw [h]; exact lt_irrefl _)]
      constructor
      · intro h0; exact absurd h0 (by norm_num)
      · intro hx; exact absurd (hhalf.mpr hx) (by rw [h]; exact lt_irrefl _)
    · rw [if_neg (by linarith), if_pos h]
      exact ⟨fun _ => hhalf.mp h, fun _ => rfl⟩
